import Mathlib

/-!
Shallow embedding of the Covalent custom-executor template
(`covalent_executor_template/custom.py`, the module registered as the
plugin in `setup.py`), together with the construction-time option filter
of the legacy top-level `custom.py`.  Python values, exceptions, the
shared multiprocessing queue and the info dictionaries are modelled
explicitly; the user callable is a function producing a return value or
a raised exception plus the stdout/stderr text captured while it ran.
-/

namespace Covalent

/-- Lifecycle states of a covalent `Result` object.  `NEW_OBJ` is the
not-yet-started sentinel that `get_status` falls back to. -/
inductive Status
  | NEW_OBJ
  | RUNNING
  | COMPLETED
  | FAILED
deriving DecidableEq, Repr

/-- `COMPLETED` and `FAILED` are the terminal states. -/
def Status.isTerminal : Status → Bool
  | .COMPLETED => true
  | .FAILED => true
  | _ => false

/-- Python exceptions relevant to the template. -/
inductive PyExc
  | TypeError
  | UserError (msg : String)
  | InterruptedError
  | DeserializationError (msg : String)
deriving DecidableEq, Repr

/-- Python values flowing through the executor: `vnone` is Python's
`None`; `vdict` stands for an object (such as a dict) that supports no
multiplication; `vexc` is an exception object; `vstatus` is a covalent
`Result` status object. -/
inductive PyVal
  | vnone
  | vint (n : Int)
  | vstr (s : String)
  | vdict
  | vexc (e : PyExc)
  | vstatus (s : Status)
deriving DecidableEq, Repr

/-- Python's `2 * result`: defined for ints (doubling) and strings
(repetition); any other operand raises `TypeError`. -/
def py_mul2 : PyVal → Except PyExc PyVal
  | .vint n => .ok (.vint (2 * n))
  | .vstr s => .ok (.vstr (s ++ s))
  | _ => .error .TypeError

/-- An info dictionary (Python `dict`), as an association list whose
earlier entries shadow later ones on lookup. -/
abbrev InfoDict := List (String × PyVal)

/-- `d.get(k, dflt)`: first value stored under `k`, else the default. -/
def dictGet : InfoDict → String → PyVal → PyVal
  | [], _, dflt => dflt
  | kv :: rest, k, dflt => if kv.1 = k then kv.2 else dictGet rest k dflt

/-- `k in d`. -/
def dictContains : InfoDict → String → Bool
  | [], _ => false
  | kv :: rest, k => if kv.1 = k then true else dictContains rest k

/-- Replace the value under an existing key `k`, keeping its position. -/
def dictReplace : InfoDict → String → PyVal → InfoDict
  | [], _, _ => []
  | kv :: rest, k, v => (if kv.1 = k then (kv.1, v) else kv) :: dictReplace rest k v

/-- `d[k] = v`: overwrite in place when the key exists, append otherwise. -/
def dictSet (d : InfoDict) (k : String) (v : PyVal) : InfoDict :=
  if dictContains d k then dictReplace d k v else d ++ [(k, v)]

/-- A `multiprocessing.Queue` of info dictionaries, FIFO. -/
abbrev MPQueue := List InfoDict

/-- `q.put(d)` / `q.put_nowait(d)` on an unbounded queue: append. -/
def queuePut (q : MPQueue) (d : InfoDict) : MPQueue := q ++ [d]

/-- `q.get()`: pop the oldest entry.  A blocking get never returns on an
empty queue; `execute` only gets after its own put, so the `[]` branch
is unreachable in every use below. -/
def queueGet : MPQueue → InfoDict × MPQueue
  | [] => ([], [])
  | d :: rest => (d, rest)

/-- Outcome of invoking the deserialized user callable: the returned
value or the raised exception, plus the stdout/stderr text captured by
the `redirect_stdout`/`redirect_stderr` buffers during the call. -/
structure CallOutcome where
  ret : Except PyExc PyVal
  stdout : String
  stderr : String

/-- A deserialized Python callable: a name (`__name__`) and a behaviour
on positional arguments and keyword arguments. -/
structure PyCallable where
  name : String
  call : List PyVal → List (String × PyVal) → CallOutcome

/-- A covalent `TransportableObject`: `get_deserialized` either yields
the callable or raises (e.g. a corrupt payload). -/
structure TransportableObject where
  get_deserialized : Except PyExc PyCallable

/-- The example auxiliary class of the module; `execute` only logs its
`multiplier`, so it has no observable effect in the model. -/
structure ExternalClass where
  multiplier : Int

/-- The names `CustomExecutor.__init__` forwards to `BaseExecutor`. -/
def baseKeys : List String := ["conda_env", "cache_dir", "current_env_on_conda_fail"]

/-- The executor instance: the two example inputs, the open keyword
mapping stored on the instance, and the subset of it passed on to the
`BaseExecutor` initializer. -/
structure CustomExecutor where
  executor_input1 : String
  executor_input2 : Int
  kwargs : List (String × PyVal)
  base_kwargs : List (String × PyVal)

/-- `CustomExecutor.__init__`: store the inputs and the whole keyword
mapping, and forward exactly the allow-listed names to `BaseExecutor`. -/
def CustomExecutor.init (executor_input1 : String) (executor_input2 : Int)
    (kwargs : List (String × PyVal)) : CustomExecutor :=
  ⟨executor_input1, executor_input2, kwargs,
    kwargs.filter (fun kv => baseKeys.contains kv.1)⟩

/-- `CustomExecutor.helper_function`: `2 * result`, which raises a
`TypeError` on operands without multiplication support. -/
def CustomExecutor.helper_function (_ex : CustomExecutor) (result : PyVal) :
    Except PyExc PyVal :=
  py_mul2 result

/-- Everything observable about one `execute` call: the returned tuple
(or the exception that propagated out of `execute`), the final queue
contents, and the trace of dictionaries this call put on the queue. -/
structure ExecEffect where
  retval : Except PyExc (List PyVal)
  queue : MPQueue
  puts : List InfoDict
deriving Repr

/-- `CustomExecutor.execute`, step for step: deserialize (a failure
here propagates before any queue traffic); put a RUNNING info dict;
invoke the callable under output capture, catching any exception it
raises; apply `helper_function` unguarded when the result is not None
(a failure here propagates after the RUNNING put); pop an info dict,
set its STATUS to FAILED when the result is None and COMPLETED
otherwise, and put it back; return the 4-tuple
`(result, stdout, stderr, exception)`. -/
def CustomExecutor.execute (ex : CustomExecutor) (function : TransportableObject)
    (args : List PyVal) (kwargs : List (String × PyVal)) (info_queue : MPQueue)
    (_task_id : Int) (_dispatch_id : String) (_results_dir : String) : ExecEffect :=
  match function.get_deserialized with
  | .error e => ⟨.error e, info_queue, []⟩
  | .ok fn =>
    let runningDict : InfoDict := [("STATUS", .vstatus .RUNNING)]
    let q1 := queuePut info_queue runningDict
    let outcome := fn.call args kwargs
    let result : PyVal := match outcome.ret with | .ok v => v | .error _ => .vnone
    let exception : Option PyExc :=
      match outcome.ret with | .ok _ => none | .error e => some e
    match (if result = .vnone then Except.ok result else ex.helper_function result) with
    | .error e => ⟨.error e, q1, [runningDict]⟩
    | .ok result2 =>
      let got := queueGet q1
      let finalDict := dictSet got.1 "STATUS"
        (if result2 = .vnone then .vstatus .FAILED else .vstatus .COMPLETED)
      ⟨.ok [result2, .vstr outcome.stdout, .vstr outcome.stderr,
            (match exception with | some e => .vexc e | none => .vnone)],
        queuePut got.2 finalDict, [runningDict, finalDict]⟩

/-- `CustomExecutor.get_status`: the value under `"STATUS"`, else the
not-yet-started sentinel `Result.NEW_OBJ`.  Pure and total. -/
def CustomExecutor.get_status (_ex : CustomExecutor) (info_dict : InfoDict) : PyVal :=
  dictGet info_dict "STATUS" (.vstatus .NEW_OBJ)

/-- `CustomExecutor.cancel` (Python default argument: the empty dict):
the stub returns `(None, "", "", InterruptedError)` unconditionally and
cannot raise. -/
def CustomExecutor.cancel (_ex : CustomExecutor) (_info_dict : InfoDict) : List PyVal :=
  [.vnone, .vstr "", .vstr "", .vexc .InterruptedError]

/-- The allow-list of the legacy top-level `custom.py`, which also
forwards the two logging flags. -/
def legacyBaseKeys : List String :=
  ["log_stdout", "log_stderr", "conda_env", "cache_dir", "current_env_on_conda_fail"]

/-- The legacy executor instance of the top-level `custom.py` (it also
stores extra positional arguments). -/
structure LegacyCustomExecutor where
  executor_input1 : String
  executor_input2 : Int
  args : List PyVal
  kwargs : List (String × PyVal)
  base_kwargs : List (String × PyVal)

/-- `CustomExecutor.__init__` of the legacy top-level `custom.py`. -/
def LegacyCustomExecutor.init (executor_input1 : String) (executor_input2 : Int)
    (args : List PyVal) (kwargs : List (String × PyVal)) : LegacyCustomExecutor :=
  ⟨executor_input1, executor_input2, args, kwargs,
    kwargs.filter (fun kv => legacyBaseKeys.contains kv.1)⟩

/-- Does an info dict record a terminal status under `"STATUS"`? -/
def isTerminalWrite (d : InfoDict) : Bool :=
  match dictGet d "STATUS" (.vstatus .NEW_OBJ) with
  | .vstatus s => s.isTerminal
  | _ => false

/-! Concrete instances used by witnesses and counterexamples. -/

/-- A plain executor instance, as built in the repository's tests. -/
def ex0 : CustomExecutor := CustomExecutor.init "input1" 0 []

/-- The identity task of the tests: `def simple_task(x): return x`.
Called with one positional argument it returns it; any other arity
raises a `TypeError`, as in Python. -/
def simple_task : PyCallable :=
  ⟨"simple_task", fun args _ =>
    ⟨(match args with
      | [v] => Except.ok v
      | _ => Except.error (PyExc.UserError "TypeError: bad arity")), "", ""⟩⟩

/-- `simple_task` wrapped as an already-deserializable transportable. -/
def simpleTO : TransportableObject := ⟨.ok simple_task⟩

/-- A task that returns a dict, a value `2 * result` cannot handle. -/
def dict_task : PyCallable := ⟨"dict_task", fun _ _ => ⟨.ok .vdict, "", ""⟩⟩

/-- `dict_task` wrapped as a transportable. -/
def dictTO : TransportableObject := ⟨.ok dict_task⟩

/-- A task that raises, after writing some stderr text. -/
def failing_task : PyCallable :=
  ⟨"failing_task", fun _ _ => ⟨.error (.UserError "boom"), "", "traceback"⟩⟩

/-- `failing_task` wrapped as a transportable. -/
def failingTO : TransportableObject := ⟨.ok failing_task⟩

/-- A task that succeeds but returns `None`, after printing. -/
def none_task : PyCallable := ⟨"none_task", fun _ _ => ⟨.ok .vnone, "printed", ""⟩⟩

/-- `none_task` wrapped as a transportable. -/
def noneTO : TransportableObject := ⟨.ok none_task⟩

/-! Helper lemmas shared by the claim theorems. -/

/-- Updating a key makes it the value subsequent lookups see. -/
lemma dictGet_dictSet (d : InfoDict) (k : String) (v dflt : PyVal) :
    dictGet (dictSet d k v) k dflt = v := by
  unfold dictSet
  by_cases h : dictContains d k = true
  · simp only [h, if_true]
    induction d with
    | nil => simp [dictContains] at h
    | cons kv rest ih =>
      by_cases hk : kv.1 = k
      · simp [dictReplace, dictGet, hk]
      · have hrest : dictContains rest k = true := by
          simpa [dictContains, hk] using h
        simp [dictReplace, dictGet, hk, ih hrest]
  · simp only [h, if_false]
    induction d with
    | nil => simp [dictGet]
    | cons kv rest ih =>
      have hk : ¬ kv.1 = k := by
        intro hh
        simp [dictContains, hh] at h
      have hrest : ¬ dictContains rest k = true := by
        intro hh
        simp [dictContains, hk, hh] at h
      simpa [dictGet, hk] using ih hrest

/-- The doubling transform never produces `None` when it succeeds. -/
lemma py_mul2_ne_vnone (v w : PyVal) (h : py_mul2 v = .ok w) : w ≠ .vnone := by
  cases v <;> simp [py_mul2] at h <;> simp [← h]

/-- `execute` when deserialization fails: the error propagates before
any queue traffic. -/
lemma execute_of_deser_error (ex : CustomExecutor) (tobj : TransportableObject)
    (args : List PyVal) (kwargs : List (String × PyVal)) (q : MPQueue)
    (tid : Int) (did rdir : String) (e : PyExc)
    (hdes : tobj.get_deserialized = .error e) :
    ex.execute tobj args kwargs q tid did rdir = ⟨.error e, q, []⟩ := by
  simp [CustomExecutor.execute, hdes]

/-- `execute` when the callable raises: the exception is caught and put
in the last tuple slot, the result slot is `None`, and the status dict
written back carries FAILED. -/
lemma execute_of_raise (ex : CustomExecutor) (tobj : TransportableObject)
    (fn : PyCallable) (args : List PyVal) (kwargs : List (String × PyVal))
    (q : MPQueue) (tid : Int) (did rdir : String) (e : PyExc)
    (hdes : tobj.get_deserialized = .ok fn)
    (hret : (fn.call args kwargs).ret = .error e) :
    ex.execute tobj args kwargs q tid did rdir =
      ⟨.ok [.vnone, .vstr (fn.call args kwargs).stdout,
            .vstr (fn.call args kwargs).stderr, .vexc e],
        queuePut (queueGet (queuePut q [("STATUS", .vstatus .RUNNING)])).2
          (dictSet (queueGet (queuePut q [("STATUS", .vstatus .RUNNING)])).1
            "STATUS" (.vstatus .FAILED)),
        [[("STATUS", .vstatus .RUNNING)],
          dictSet (queueGet (queuePut q [("STATUS", .vstatus .RUNNING)])).1
            "STATUS" (.vstatus .FAILED)]⟩ := by
  simp [CustomExecutor.execute, hdes, hret]

/-- `execute` when the callable returns `None`: post-processing is
skipped, the status written back is FAILED, and both the result slot
and the exception slot of the tuple are `None`. -/
lemma execute_of_none (ex : CustomExecutor) (tobj : TransportableObject)
    (fn : PyCallable) (args : List PyVal) (kwargs : List (String × PyVal))
    (q : MPQueue) (tid : Int) (did rdir : String)
    (hdes : tobj.get_deserialized = .ok fn)
    (hret : (fn.call args kwargs).ret = .ok .vnone) :
    ex.execute tobj args kwargs q tid did rdir =
      ⟨.ok [.vnone, .vstr (fn.call args kwargs).stdout,
            .vstr (fn.call args kwargs).stderr, .vnone],
        queuePut (queueGet (queuePut q [("STATUS", .vstatus .RUNNING)])).2
          (dictSet (queueGet (queuePut q [("STATUS", .vstatus .RUNNING)])).1
            "STATUS" (.vstatus .FAILED)),
        [[("STATUS", .vstatus .RUNNING)],
          dictSet (queueGet (queuePut q [("STATUS", .vstatus .RUNNING)])).1
            "STATUS" (.vstatus .FAILED)]⟩ := by
  simp [CustomExecutor.execute, hdes, hret]

/-- `execute` when the callable returns a non-`None` value the doubling
transform accepts: the transformed value lands in the result slot, the
exception slot is `None`, and the status written back is COMPLETED. -/
lemma execute_of_ok (ex : CustomExecutor) (tobj : TransportableObject)
    (fn : PyCallable) (args : List PyVal) (kwargs : List (String × PyVal))
    (q : MPQueue) (tid : Int) (did rdir : String) (v w : PyVal)
    (hdes : tobj.get_deserialized = .ok fn)
    (hret : (fn.call args kwargs).ret = .ok v) (hv : v ≠ .vnone)
    (hmul : py_mul2 v = .ok w) :
    ex.execute tobj args kwargs q tid did rdir =
      ⟨.ok [w, .vstr (fn.call args kwargs).stdout,
            .vstr (fn.call args kwargs).stderr, .vnone],
        queuePut (queueGet (queuePut q [("STATUS", .vstatus .RUNNING)])).2
          (dictSet (queueGet (queuePut q [("STATUS", .vstatus .RUNNING)])).1
            "STATUS" (.vstatus .COMPLETED)),
        [[("STATUS", .vstatus .RUNNING)],
          dictSet (queueGet (queuePut q [("STATUS", .vstatus .RUNNING)])).1
            "STATUS" (.vstatus .COMPLETED)]⟩ := by
  have hw := py_mul2_ne_vnone v w hmul
  simp [CustomExecutor.execute, CustomExecutor.helper_function, hdes, hret, hv, hmul, hw]

/-- `execute` when the callable returns a non-`None` value the doubling
transform rejects: the `TypeError` propagates past the executor after
the RUNNING put, and no terminal status is ever written. -/
lemma execute_of_post_raise (ex : CustomExecutor) (tobj : TransportableObject)
    (fn : PyCallable) (args : List PyVal) (kwargs : List (String × PyVal))
    (q : MPQueue) (tid : Int) (did rdir : String) (v : PyVal) (e : PyExc)
    (hdes : tobj.get_deserialized = .ok fn)
    (hret : (fn.call args kwargs).ret = .ok v) (hv : v ≠ .vnone)
    (hmul : py_mul2 v = .error e) :
    ex.execute tobj args kwargs q tid did rdir =
      ⟨.error e, queuePut q [("STATUS", .vstatus .RUNNING)],
        [[("STATUS", .vstatus .RUNNING)]]⟩ := by
  simp [CustomExecutor.execute, CustomExecutor.helper_function, hdes, hret, hv, hmul]

/-- A key absent from a dict leaves lookups at the default. -/
lemma dictGet_of_not_contains (d : InfoDict) (k : String) (dflt : PyVal)
    (h : dictContains d k = false) : dictGet d k dflt = dflt := by
  induction d with
  | nil => rfl
  | cons kv rest ih =>
    have hk : ¬ kv.1 = k := by
      intro hh
      simp [dictContains, hh] at h
    have hrest : dictContains rest k = false := by
      simpa [dictContains, hk] using h
    simpa [dictGet, hk] using ih hrest

/-- On a dict with no duplicate keys, lookup returns the stored value. -/
lemma dictGet_of_mem_nodup (d : InfoDict) (k : String) (v dflt : PyVal)
    (hnd : (d.map Prod.fst).Nodup) (hmem : (k, v) ∈ d) : dictGet d k dflt = v := by
  induction d with
  | nil => cases hmem
  | cons kv rest ih =>
    have hnd2 : (kv.1 :: rest.map Prod.fst).Nodup := by simpa using hnd
    obtain ⟨hnotin, hnd'⟩ := List.nodup_cons.mp hnd2
    rcases List.mem_cons.mp hmem with heq | hrest
    · simp [dictGet, ← heq]
    · have hk : ¬ kv.1 = k := by
        intro hh
        exact hnotin (hh ▸ List.mem_map.mpr ⟨(k, v), hrest, rfl⟩)
      simpa [dictGet, hk] using ih hnd' hrest

/-- The dict written back by `execute` records exactly the terminal
status chosen there. -/
lemma isTerminalWrite_dictSet (d : InfoDict) (st : Status) :
    isTerminalWrite (dictSet d "STATUS" (.vstatus st)) = st.isTerminal := by
  unfold isTerminalWrite
  rw [dictGet_dictSet]

/-- The RUNNING dict put first is not a terminal write. -/
lemma isTerminalWrite_running :
    isTerminalWrite [("STATUS", PyVal.vstatus Status.RUNNING)] = false := rfl

/-- Complete case analysis of one `execute` call: either an exception
propagates (deserialization failure before any put, or the unguarded
post-processing after the RUNNING put), or a tuple is returned and the
trace is the RUNNING dict followed by exactly one dict updated to a
terminal status, FAILED or COMPLETED. -/
lemma execute_outcome (ex : CustomExecutor) (tobj : TransportableObject)
    (args : List PyVal) (kwargs : List (String × PyVal)) (q : MPQueue)
    (tid : Int) (did rdir : String) :
    (∃ e, (ex.execute tobj args kwargs q tid did rdir).retval = .error e ∧
      ((ex.execute tobj args kwargs q tid did rdir).puts = [] ∨
        (ex.execute tobj args kwargs q tid did rdir).puts =
          [[("STATUS", .vstatus .RUNNING)]])) ∨
    (∃ t d st, (ex.execute tobj args kwargs q tid did rdir).retval = .ok t ∧
      (st = Status.FAILED ∨ st = Status.COMPLETED) ∧
      (ex.execute tobj args kwargs q tid did rdir).puts =
        [[("STATUS", .vstatus .RUNNING)], dictSet d "STATUS" (.vstatus st)]) := by
  cases hdes : tobj.get_deserialized with
  | error e =>
    rw [execute_of_deser_error ex tobj args kwargs q tid did rdir e hdes]
    exact Or.inl ⟨e, rfl, Or.inl rfl⟩
  | ok fn =>
    cases hret : (fn.call args kwargs).ret with
    | error e =>
      rw [execute_of_raise ex tobj fn args kwargs q tid did rdir e hdes hret]
      exact Or.inr ⟨_, _, Status.FAILED, rfl, Or.inl rfl, rfl⟩
    | ok v =>
      by_cases hv : v = PyVal.vnone
      · subst hv
        rw [execute_of_none ex tobj fn args kwargs q tid did rdir hdes hret]
        exact Or.inr ⟨_, _, Status.FAILED, rfl, Or.inl rfl, rfl⟩
      · cases hmul : py_mul2 v with
        | error e =>
          rw [execute_of_post_raise ex tobj fn args kwargs q tid did rdir v e hdes hret hv hmul]
          exact Or.inl ⟨e, rfl, Or.inr rfl⟩
        | ok w =>
          rw [execute_of_ok ex tobj fn args kwargs q tid did rdir v w hdes hret hv hmul]
          exact Or.inr ⟨_, _, Status.COMPLETED, rfl, Or.inr rfl, rfl⟩

/-! Claim theorems. -/

/-- C1 counterexample: the claim says every invocation of `execute`
returns a fixed-shape 4-tuple whether the callable succeeds or raises,
but when the callable succeeds with a dict the unguarded doubling step
raises a `TypeError` past `execute`, so no tuple is returned at all. -/
theorem C1_counterexample :
    (ex0.execute dictTO [] [] [] 0 "dispatch" "./").retval =
      Except.error PyExc.TypeError := rfl

/-- C1 (amended): for every invocation of `CustomExecutor.execute` in
which the unguarded post-processing step does not raise — in particular
whenever the deserialized callable raises, returns `None`, or returns a
value the doubling transform accepts — the return value is a
fixed-shape 4-tuple (result-or-null, captured-stdout-text,
captured-stderr-text, captured-exception-or-null), with the same
positions in both outcomes: on failure the result slot is null and the
exception slot holds the caught exception, on success the exception
slot is null. -/
theorem C1_execute_fixed_shape (ex : CustomExecutor) (tobj : TransportableObject)
    (fn : PyCallable) (args : List PyVal) (kwargs : List (String × PyVal))
    (q : MPQueue) (tid : Int) (did rdir : String)
    (hdes : tobj.get_deserialized = .ok fn)
    (hpost : ∀ v, (fn.call args kwargs).ret = .ok v → v ≠ .vnone →
      ∃ w, py_mul2 v = .ok w) :
    ∃ r x, (ex.execute tobj args kwargs q tid did rdir).retval =
        .ok [r, .vstr (fn.call args kwargs).stdout,
             .vstr (fn.call args kwargs).stderr, x] ∧
      ((∃ e, (fn.call args kwargs).ret = .error e ∧ r = .vnone ∧ x = .vexc e) ∨
        ((∃ v, (fn.call args kwargs).ret = .ok v) ∧ x = .vnone)) := by
  cases hret : (fn.call args kwargs).ret with
  | error e =>
    refine ⟨.vnone, .vexc e, ?_, Or.inl ⟨e, rfl, rfl, rfl⟩⟩
    rw [execute_of_raise ex tobj fn args kwargs q tid did rdir e hdes hret]
  | ok v =>
    by_cases hv : v = PyVal.vnone
    · subst hv
      refine ⟨.vnone, .vnone, ?_, Or.inr ⟨⟨_, rfl⟩, rfl⟩⟩
      rw [execute_of_none ex tobj fn args kwargs q tid did rdir hdes hret]
    · obtain ⟨w, hw⟩ := hpost v hret hv
      refine ⟨w, .vnone, ?_, Or.inr ⟨⟨_, rfl⟩, rfl⟩⟩
      rw [execute_of_ok ex tobj fn args kwargs q tid did rdir v w hdes hret hv hw]

/-- C1 witness: the amended shape theorem applied to the identity task
called with argument 5 on a fresh executor. -/
theorem C1_execute_fixed_shape_witness :
    ∃ r x, (ex0.execute simpleTO [PyVal.vint 5] [] [] 0 "d" "r").retval =
        .ok [r, .vstr (simple_task.call [PyVal.vint 5] []).stdout,
             .vstr (simple_task.call [PyVal.vint 5] []).stderr, x] ∧
      ((∃ e, (simple_task.call [PyVal.vint 5] []).ret = .error e ∧
          r = .vnone ∧ x = .vexc e) ∨
        ((∃ v, (simple_task.call [PyVal.vint 5] []).ret = .ok v) ∧ x = .vnone)) :=
  C1_execute_fixed_shape ex0 simpleTO simple_task [PyVal.vint 5] [] [] 0 "d" "r" rfl
    (fun v hv _ => by
      cases Except.ok.inj hv
      exact ⟨_, rfl⟩)

/-- C2 counterexample: the claim says the stdout/stderr logging flags
are among the forwarded allow-listed names, but the packaged executor
(`covalent_executor_template/custom.py`) does not forward `log_stdout`
to the base configuration — only `conda_env`, `cache_dir` and
`current_env_on_conda_fail` are allow-listed there. -/
theorem C2_counterexample :
    (CustomExecutor.init "input1" 0 [("log_stdout", PyVal.vint 1)]).base_kwargs = [] ∧
    (CustomExecutor.init "input1" 0 [("log_stdout", PyVal.vint 1)]).kwargs =
      [("log_stdout", PyVal.vint 1)] := ⟨rfl, rfl⟩

/-- C2 (amended): for every construction, exactly the allow-listed
option names are forwarded to the base configuration initializer — for
the packaged executor the list is conda environment name, cache
directory and the fallback flag, while only the legacy top-level module
additionally forwards the stdout/stderr logging flags — and every
option name, recognized or not, remains accessible unchanged on the
instance's open `kwargs` mapping. -/
theorem C2_init_forwarding (s : String) (n : Int) (pargs : List PyVal)
    (kwargs : List (String × PyVal)) (kv : String × PyVal) :
    (CustomExecutor.init s n kwargs).kwargs = kwargs ∧
    (kv ∈ (CustomExecutor.init s n kwargs).base_kwargs ↔
      kv ∈ kwargs ∧ kv.1 ∈ baseKeys) ∧
    (LegacyCustomExecutor.init s n pargs kwargs).kwargs = kwargs ∧
    (kv ∈ (LegacyCustomExecutor.init s n pargs kwargs).base_kwargs ↔
      kv ∈ kwargs ∧ kv.1 ∈ legacyBaseKeys) := by
  refine ⟨rfl, ?_, rfl, ?_⟩ <;>
    simp [CustomExecutor.init, LegacyCustomExecutor.init, List.mem_filter]

/-- C2 witness: the amended forwarding theorem at a concrete kwargs
mapping holding one allow-listed and one unrecognized option. -/
theorem C2_init_forwarding_witness :
    (CustomExecutor.init "input1" 5
      [("kwarg", PyVal.vstr "custom param"), ("conda_env", PyVal.vstr "env")]).kwargs =
      [("kwarg", PyVal.vstr "custom param"), ("conda_env", PyVal.vstr "env")] ∧
    (("conda_env", PyVal.vstr "env") ∈ (CustomExecutor.init "input1" 5
        [("kwarg", PyVal.vstr "custom param"), ("conda_env", PyVal.vstr "env")]).base_kwargs ↔
      ("conda_env", PyVal.vstr "env") ∈
        [("kwarg", PyVal.vstr "custom param"), ("conda_env", PyVal.vstr "env")] ∧
      ("conda_env", PyVal.vstr "env").1 ∈ baseKeys) ∧
    (LegacyCustomExecutor.init "input1" 5 []
      [("kwarg", PyVal.vstr "custom param"), ("conda_env", PyVal.vstr "env")]).kwargs =
      [("kwarg", PyVal.vstr "custom param"), ("conda_env", PyVal.vstr "env")] ∧
    (("conda_env", PyVal.vstr "env") ∈ (LegacyCustomExecutor.init "input1" 5 []
        [("kwarg", PyVal.vstr "custom param"), ("conda_env", PyVal.vstr "env")]).base_kwargs ↔
      ("conda_env", PyVal.vstr "env") ∈
        [("kwarg", PyVal.vstr "custom param"), ("conda_env", PyVal.vstr "env")] ∧
      ("conda_env", PyVal.vstr "env").1 ∈ legacyBaseKeys) :=
  C2_init_forwarding "input1" 5 []
    [("kwarg", PyVal.vstr "custom param"), ("conda_env", PyVal.vstr "env")]
    ("conda_env", PyVal.vstr "env")

/-- C3: for every callable that raises, `execute` catches the exception
instead of propagating it and returns a tuple with a null result slot
and the caught exception in the exception slot, and the status written
to the shared channel becomes FAILED (read back via `get_status`). -/
theorem C3_execute_catches_and_fails (ex : CustomExecutor) (tobj : TransportableObject)
    (fn : PyCallable) (args : List PyVal) (kwargs : List (String × PyVal))
    (q : MPQueue) (tid : Int) (did rdir : String) (e : PyExc)
    (hdes : tobj.get_deserialized = .ok fn)
    (hret : (fn.call args kwargs).ret = .error e) :
    (ex.execute tobj args kwargs q tid did rdir).retval =
      .ok [.vnone, .vstr (fn.call args kwargs).stdout,
           .vstr (fn.call args kwargs).stderr, .vexc e] ∧
    ∃ d, (ex.execute tobj args kwargs q tid did rdir).puts.getLast? = some d ∧
      ex.get_status d = .vstatus .FAILED := by
  rw [execute_of_raise ex tobj fn args kwargs q tid did rdir e hdes hret]
  exact ⟨rfl, ⟨_, rfl, dictGet_dictSet _ "STATUS" _ _⟩⟩

/-- C3 witness: the catching theorem applied to a concretely raising
task; the exception lands in the last tuple slot and the last write to
the channel reads back as FAILED. -/
theorem C3_execute_catches_and_fails_witness :
    (ex0.execute failingTO [] [] [] 0 "d" "r").retval =
      .ok [.vnone, .vstr (failing_task.call [] []).stdout,
           .vstr (failing_task.call [] []).stderr, .vexc (.UserError "boom")] ∧
    ∃ d, (ex0.execute failingTO [] [] [] 0 "d" "r").puts.getLast? = some d ∧
      ex0.get_status d = .vstatus .FAILED :=
  C3_execute_catches_and_fails ex0 failingTO failing_task [] [] [] 0 "d" "r"
    (.UserError "boom") rfl rfl

/-- C4: the identity callable invoked by `execute` with positional
argument 5 yields a tuple whose first element is 10 (the doubling
post-process applied to 5) and whose exception slot is null. -/
theorem C4_identity_five_doubled :
    (ex0.execute simpleTO [PyVal.vint 5] [] [] 0 "dispatch" "./").retval =
      .ok [PyVal.vint 10, .vstr "", .vstr "", .vnone] := rfl

/-- C5 counterexample: the claim says the post-processing step never
raises past the executor for every possible result value, but the
doubling transform rejects a dict result and the resulting `TypeError`
propagates out of `execute`. -/
theorem C5_counterexample :
    py_mul2 PyVal.vdict = Except.error PyExc.TypeError ∧
    (ex0.execute dictTO [PyVal.vint 1] [] [] 1 "d5" "r5").retval =
      Except.error PyExc.TypeError := ⟨rfl, rfl⟩

/-- C5 (amended): the post-processing step raises nothing past the
executor whenever the callable's result is a value the doubling
transform accepts (an int or a string), is `None`, or the callable
raised; only a result the transform rejects makes `execute` itself
raise, the design gap the spec acknowledges. -/
theorem C5_post_processing_safe_values (ex : CustomExecutor) (tobj : TransportableObject)
    (fn : PyCallable) (args : List PyVal) (kwargs : List (String × PyVal))
    (q : MPQueue) (tid : Int) (did rdir : String)
    (hdes : tobj.get_deserialized = .ok fn)
    (hres : ∀ v, (fn.call args kwargs).ret = .ok v →
      (∃ n, v = PyVal.vint n) ∨ (∃ s, v = PyVal.vstr s) ∨ v = PyVal.vnone) :
    ∃ t, (ex.execute tobj args kwargs q tid did rdir).retval = .ok t := by
  cases hret : (fn.call args kwargs).ret with
  | error e =>
    exact ⟨_, by rw [execute_of_raise ex tobj fn args kwargs q tid did rdir e hdes hret]⟩
  | ok v =>
    rcases hres v hret with ⟨n, rfl⟩ | ⟨s, rfl⟩ | rfl
    · exact ⟨_, by rw [execute_of_ok ex tobj fn args kwargs q tid did rdir _ _ hdes hret
        (by simp) rfl]⟩
    · exact ⟨_, by rw [execute_of_ok ex tobj fn args kwargs q tid did rdir _ _ hdes hret
        (by simp) rfl]⟩
    · exact ⟨_, by rw [execute_of_none ex tobj fn args kwargs q tid did rdir hdes hret]⟩

/-- C5 witness: the amended safety theorem applied to the identity task
on an int argument. -/
theorem C5_post_processing_safe_values_witness :
    ∃ t, (ex0.execute simpleTO [PyVal.vint 7] [] [] 1 "d" "r").retval = .ok t :=
  C5_post_processing_safe_values ex0 simpleTO simple_task [PyVal.vint 7] [] [] 1 "d" "r"
    rfl (fun v hv => by
      cases Except.ok.inj hv
      exact Or.inl ⟨7, rfl⟩)

/-- C6 counterexample: the claim says exactly one terminal-status write
happens per invocation, but when the unguarded post-processing raises,
the invocation ends with only the RUNNING write on the channel — zero
terminal writes. -/
theorem C6_counterexample :
    (ex0.execute dictTO [] [] [] 2 "d6" "r6").puts.countP isTerminalWrite = 0 := by
  decide

/-- C6 (amended): per invocation at most one status write is terminal,
and the same invocation is never reported both FAILED and COMPLETED;
the count is exactly one whenever `execute` returns a tuple, and zero
when an exception propagates out of `execute` (deserialization failure
or the unguarded post-processing raising). -/
theorem C6_terminal_status_writes (ex : CustomExecutor) (tobj : TransportableObject)
    (args : List PyVal) (kwargs : List (String × PyVal)) (q : MPQueue)
    (tid : Int) (did rdir : String) (t : List PyVal) (e : PyExc) :
    (ex.execute tobj args kwargs q tid did rdir).puts.countP isTerminalWrite ≤ 1 ∧
    ((ex.execute tobj args kwargs q tid did rdir).retval = .ok t →
      (ex.execute tobj args kwargs q tid did rdir).puts.countP isTerminalWrite = 1) ∧
    ((ex.execute tobj args kwargs q tid did rdir).retval = .error e →
      (ex.execute tobj args kwargs q tid did rdir).puts.countP isTerminalWrite = 0) ∧
    ¬((∃ d ∈ (ex.execute tobj args kwargs q tid did rdir).puts,
        dictGet d "STATUS" (.vstatus .NEW_OBJ) = .vstatus .COMPLETED) ∧
      (∃ d ∈ (ex.execute tobj args kwargs q tid did rdir).puts,
        dictGet d "STATUS" (.vstatus .NEW_OBJ) = .vstatus .FAILED)) := by
  rcases execute_outcome ex tobj args kwargs q tid did rdir with
    ⟨e2, hr, hp | hp⟩ | ⟨t2, d2, st, hr, hst, hp⟩
  · refine ⟨by simp [hp], fun ht => ?_, fun _ => by simp [hp], ?_⟩
    · rw [hr] at ht
      exact absurd ht (by simp)
    · rintro ⟨⟨d1, hd1, _⟩, _⟩
      rw [hp] at hd1
      cases hd1
  · have hterm : ∀ d, d ∈ (ex.execute tobj args kwargs q tid did rdir).puts →
        dictGet d "STATUS" (.vstatus .NEW_OBJ) = .vstatus .RUNNING := by
      intro d hd
      rw [hp] at hd
      rcases List.mem_singleton.mp hd with rfl
      rfl
    refine ⟨?_, fun ht => ?_, fun _ => ?_, ?_⟩
    · rw [hp]
      simp [List.countP_cons, isTerminalWrite_running]
    · rw [hr] at ht
      exact absurd ht (by simp)
    · rw [hp]
      simp [List.countP_cons, isTerminalWrite_running]
    · rintro ⟨⟨d1, hd1, hc⟩, _⟩
      rw [hterm d1 hd1] at hc
      cases hc
  · have hcount : (ex.execute tobj args kwargs q tid did rdir).puts.countP
        isTerminalWrite = 1 := by
      rw [hp]
      rcases hst with rfl | rfl <;>
        simp [List.countP_cons, isTerminalWrite_running, isTerminalWrite_dictSet,
          Status.isTerminal]
    refine ⟨le_of_eq hcount, fun _ => hcount, fun he => ?_, ?_⟩
    · rw [hr] at he
      exact absurd he (by simp)
    · rintro ⟨⟨d1, hd1, hc⟩, ⟨d3, hd3, hf⟩⟩
      rw [hp] at hd1 hd3
      have hgetSet : dictGet (dictSet d2 "STATUS" (.vstatus st)) "STATUS"
          (.vstatus .NEW_OBJ) = .vstatus st := dictGet_dictSet _ _ _ _
      rcases List.mem_cons.mp hd1 with rfl | hd1'
      · cases hc
      rcases List.mem_singleton.mp hd1' with rfl
      rcases List.mem_cons.mp hd3 with rfl | hd3'
      · cases hf
      rcases List.mem_singleton.mp hd3' with rfl
      rw [hgetSet] at hc hf
      rcases hst with rfl | rfl
      · cases hc
      · cases hf

/-- C6 witness: the amended terminal-write theorem at the identity task
with argument 5; the single terminal write is the COMPLETED one. -/
theorem C6_terminal_status_writes_witness :
    (ex0.execute simpleTO [PyVal.vint 5] [] [] 0 "d" "r").puts.countP isTerminalWrite ≤ 1 ∧
    ((ex0.execute simpleTO [PyVal.vint 5] [] [] 0 "d" "r").retval =
        .ok [PyVal.vint 10, .vstr "", .vstr "", .vnone] →
      (ex0.execute simpleTO [PyVal.vint 5] [] [] 0 "d" "r").puts.countP
        isTerminalWrite = 1) ∧
    ((ex0.execute simpleTO [PyVal.vint 5] [] [] 0 "d" "r").retval =
        .error PyExc.TypeError →
      (ex0.execute simpleTO [PyVal.vint 5] [] [] 0 "d" "r").puts.countP
        isTerminalWrite = 0) ∧
    ¬((∃ d ∈ (ex0.execute simpleTO [PyVal.vint 5] [] [] 0 "d" "r").puts,
        dictGet d "STATUS" (.vstatus .NEW_OBJ) = .vstatus .COMPLETED) ∧
      (∃ d ∈ (ex0.execute simpleTO [PyVal.vint 5] [] [] 0 "d" "r").puts,
        dictGet d "STATUS" (.vstatus .NEW_OBJ) = .vstatus .FAILED)) :=
  C6_terminal_status_writes ex0 simpleTO [PyVal.vint 5] [] [] 0 "d" "r"
    [PyVal.vint 10, .vstr "", .vstr "", .vnone] PyExc.TypeError

/-- C7: `get_status` returns the value stored under the `"STATUS"` key
when it is present (no duplicate keys, as in a Python dict), otherwise
the not-yet-started sentinel `NEW_OBJ`; it is a pure total function; on
the empty mapping it returns `NEW_OBJ` and on `{STATUS: RUNNING}` it
returns `RUNNING`. -/
theorem C7_get_status_spec (ex : CustomExecutor) (d : InfoDict) (v : PyVal) :
    ((d.map Prod.fst).Nodup → ("STATUS", v) ∈ d → ex.get_status d = v) ∧
    (dictContains d "STATUS" = false → ex.get_status d = .vstatus .NEW_OBJ) ∧
    ex.get_status [] = .vstatus .NEW_OBJ ∧
    ex.get_status [("STATUS", .vstatus .RUNNING)] = .vstatus .RUNNING :=
  ⟨fun hnd hm => dictGet_of_mem_nodup d "STATUS" v _ hnd hm,
    fun h => dictGet_of_not_contains d "STATUS" _ h, rfl, rfl⟩

/-- C7 witness: the status-query theorem at `{STATUS: RUNNING}`,
discharging the presence hypotheses concretely. -/
theorem C7_get_status_spec_witness :
    ex0.get_status [("STATUS", PyVal.vstatus Status.RUNNING)] =
      PyVal.vstatus Status.RUNNING ∧
    ex0.get_status [] = PyVal.vstatus Status.NEW_OBJ :=
  ⟨(C7_get_status_spec ex0 [("STATUS", PyVal.vstatus Status.RUNNING)]
      (PyVal.vstatus Status.RUNNING)).1 (by simp) (by simp),
    (C7_get_status_spec ex0 [] PyVal.vnone).2.2.1⟩

/-- C8: `cancel` on every info mapping (the Python default is the empty
one) returns the 4-tuple `(None, "", "", InterruptedError)` — the same
shape as `execute`'s return, with a null result, empty stdout/stderr
fields, and a non-null cancellation marker in the exception slot; being
a total function of this model it cannot raise. -/
theorem C8_cancel_spec (ex : CustomExecutor) (d : InfoDict) :
    ex.cancel d = [.vnone, .vstr "", .vstr "", .vexc .InterruptedError] ∧
    (ex.cancel d).length = 4 ∧
    (ex.cancel d).head? = some .vnone ∧
    (ex.cancel d).getLast? = some (.vexc .InterruptedError) := ⟨rfl, rfl, rfl, rfl⟩

/-- C8 witness: `cancel` with the default empty mapping. -/
theorem C8_cancel_spec_witness :
    ex0.cancel [] = [.vnone, .vstr "", .vstr "", .vexc .InterruptedError] ∧
    (ex0.cancel []).length = 4 ∧
    (ex0.cancel []).head? = some .vnone ∧
    (ex0.cancel []).getLast? = some (.vexc .InterruptedError) := C8_cancel_spec ex0 []

/-- C9: a callable that completes but returns `None` makes `execute`
skip the post-processing transform (had the transform been applied to
`None` it would have raised a `TypeError`, as the last conjunct
records, yet `execute` returns a tuple), write FAILED to the shared
channel, and return a tuple whose result slot and exception slot are
both null — indistinguishable in the result slot from a raising task. -/
theorem C9_none_result_reported_failed (ex : CustomExecutor) (tobj : TransportableObject)
    (fn : PyCallable) (args : List PyVal) (kwargs : List (String × PyVal))
    (q : MPQueue) (tid : Int) (did rdir : String)
    (hdes : tobj.get_deserialized = .ok fn)
    (hret : (fn.call args kwargs).ret = .ok .vnone) :
    (ex.execute tobj args kwargs q tid did rdir).retval =
      .ok [.vnone, .vstr (fn.call args kwargs).stdout,
           .vstr (fn.call args kwargs).stderr, .vnone] ∧
    (∃ d, (ex.execute tobj args kwargs q tid did rdir).puts.getLast? = some d ∧
      ex.get_status d = .vstatus .FAILED) ∧
    py_mul2 PyVal.vnone = .error PyExc.TypeError := by
  rw [execute_of_none ex tobj fn args kwargs q tid did rdir hdes hret]
  exact ⟨rfl, ⟨_, rfl, dictGet_dictSet _ "STATUS" _ _⟩, rfl⟩

/-- C9 witness: the None-result theorem at a concrete task returning
`None` after printing. -/
theorem C9_none_result_reported_failed_witness :
    (ex0.execute noneTO [] [] [] 0 "d" "r").retval =
      .ok [.vnone, .vstr (none_task.call [] []).stdout,
           .vstr (none_task.call [] []).stderr, .vnone] ∧
    (∃ d, (ex0.execute noneTO [] [] [] 0 "d" "r").puts.getLast? = some d ∧
      ex0.get_status d = .vstatus .FAILED) ∧
    py_mul2 PyVal.vnone = .error PyExc.TypeError :=
  C9_none_result_reported_failed ex0 noneTO none_task [] [] [] 0 "d" "r" rfl rfl

/-- C10: after construction the open `kwargs` mapping is exactly the
supplied mapping, and a supplied allow-listed option is present in the
forwarded `base_kwargs` as well as in `kwargs` — forwarding removes
nothing, so the forwarded and retained sets are not disjoint. -/
theorem C10_kwargs_retained (s : String) (n : Int)
    (kwargs : List (String × PyVal)) (kv : String × PyVal)
    (hkv : kv ∈ kwargs) (hk : kv.1 ∈ baseKeys) :
    (CustomExecutor.init s n kwargs).kwargs = kwargs ∧
    kv ∈ (CustomExecutor.init s n kwargs).base_kwargs ∧
    kv ∈ (CustomExecutor.init s n kwargs).kwargs := by
  refine ⟨rfl, ?_, hkv⟩
  simp [CustomExecutor.init, List.mem_filter, hkv, hk]

/-- C10 witness: a construction supplying both an allow-listed and an
unrecognized option; the allow-listed pair sits in both mappings. -/
theorem C10_kwargs_retained_witness :
    (CustomExecutor.init "input1" 0
      [("conda_env", PyVal.vstr "myenv"), ("custom", PyVal.vint 7)]).kwargs =
      [("conda_env", PyVal.vstr "myenv"), ("custom", PyVal.vint 7)] ∧
    ("conda_env", PyVal.vstr "myenv") ∈ (CustomExecutor.init "input1" 0
      [("conda_env", PyVal.vstr "myenv"), ("custom", PyVal.vint 7)]).base_kwargs ∧
    ("conda_env", PyVal.vstr "myenv") ∈ (CustomExecutor.init "input1" 0
      [("conda_env", PyVal.vstr "myenv"), ("custom", PyVal.vint 7)]).kwargs :=
  C10_kwargs_retained "input1" 0
    [("conda_env", PyVal.vstr "myenv"), ("custom", PyVal.vint 7)]
    ("conda_env", PyVal.vstr "myenv") (by simp) (by simp [baseKeys])

end Covalent
